import Mathlib

/-!
A shallow embedding of the core retry engine of the conu library
(`conu/utils/probes.py`): the `Probe` class, its `_wrapper` execution unit,
its `_run` retry loop (foreground and background variants), and the
process-management methods `run`, `run_in_background`, `terminate`, `join`
and `is_alive`.

Modelling conventions:
* Python values relevant to the probe protocol are modelled by `PyVal`;
  Python `==` is modelled by `pyEq`, including the bool/int coercion
  (`True == 1`, `False == 0`).
* Exceptions are modelled by `PyExc`, a kind (the exception class) plus a
  message; `expected_exceptions` is the list of kinds caught by
  `except self.expected_exceptions`.
* Each spawned process (`ExecutionUnit`) runs `checkFn` once; the behaviour
  of the environment is captured by `Env`: `outcome n` is what the n-th
  spawned unit's `checkFn` call does, `aliveFor n` is how many loop
  condition checks that unit is still alive for, and `clock k` is the value
  of `time.time() - start` observed at the k-th loop condition check.
* The retry loop is fuel-indexed recursion: a result of `none` means the
  fuel budget was not enough to reach a terminal outcome (the Python loop
  can run forever when `timeout == -1` and `count == -1`).
* The loop carries the number of processes spawned so far (`attempt + 1`,
  since the first process is started before the loop), and returns it with
  the outcome.
* In background mode `self.queue` is non-None and the loop puts items on
  it instead of raising; queue items distinguish exception *instances*
  from the bare class object `CountExceeded` that `_run` puts, because
  `join` tests `isinstance(result, Exception)`, which is `False` for a
  class object.
-/

namespace Conu

/-- Python values exchanged between `checkFn`, the result queue and the
`expected_retval` comparison. -/
inductive PyVal where
  | bool (b : Bool)
  | int (n : Int)
  | str (s : String)
deriving DecidableEq, Repr

/-- A Python exception instance: its class (`kind`) and message. -/
structure PyExc where
  kind : Nat
  msg : String
deriving DecidableEq, Repr

/-- Python `==` on the modelled values, including the numeric coercion of
booleans (`True == 1` and `False == 0` hold in Python). -/
def pyEq : PyVal → PyVal → Bool
  | .bool a, .bool b => a == b
  | .int a, .int b => a == b
  | .str a, .str b => a == b
  | .bool a, .int b => (if a then (1 : Int) else 0) == b
  | .int a, .bool b => a == (if b then (1 : Int) else 0)
  | _, _ => false

/-- What one call of `checkFn` does: return a value or raise an exception. -/
inductive CheckOutcome where
  | ret (v : PyVal)
  | exc (e : PyExc)
deriving DecidableEq, Repr

/-- The one message an ExecutionUnit puts on its result queue: a plain
value (`q.put(self.fnc(**self.kwargs))` or the sentinel `q.put(False)`), or
an exception instance (`q.put(e)`). -/
inductive Msg where
  | val (v : PyVal)
  | err (e : PyExc)
deriving DecidableEq, Repr

/-- Model of `Probe._wrapper`: run `checkFn` once and put exactly one message on the
queue. A raised exception whose kind is in `expected_exceptions` is caught
by `except self.expected_exceptions` and replaced by the sentinel value
`False`; any other exception is put on the queue itself. -/
def wrapper (expected_exceptions : List Nat) (oc : CheckOutcome) : Msg :=
  match oc with
  | .ret v => .val v
  | .exc e => if e.kind ∈ expected_exceptions then .val (.bool false) else .err e

/-- The probe configuration fields set by `Probe.__init__`, with the
source's default values. `fnc` is an opaque function identifier (its
behaviour lives in `Env`); `kwargs` are the keyword arguments copied into
each ExecutionUnit. -/
structure ProbeConfig where
  timeout : Int := 1
  pause : Int := 1
  count : Int := -1
  expected_exceptions : List Nat := []
  expected_retval : PyVal := .bool true
  fnc : Nat := 0
  kwargs : List (String × PyVal) := []
deriving DecidableEq, Repr

/-- The environment a run executes in: `outcome n` is what the n-th
spawned ExecutionUnit's `checkFn` call does (0-indexed in spawn order),
`aliveFor n` is the number of loop condition checks during which that unit
is still alive, and `clock k` is `time.time() - start` at the k-th loop
condition check. -/
structure Env where
  outcome : Nat → CheckOutcome
  aliveFor : Nat → Nat
  clock : Nat → Int

/-- The `while` condition of `Probe._run`:
`(tries <= self.count or self.count == -1) and
 (self.timeout == -1 or time.time() - start <= self.timeout)`. -/
def loopCond (cfg : ProbeConfig) (tries : Nat) (elapsed : Int) : Bool :=
  (decide ((tries : Int) ≤ cfg.count) || decide (cfg.count = -1)) &&
  (decide (cfg.timeout = -1) || decide (elapsed ≤ cfg.timeout))

/-- The two terminal failure kinds of the retry loop. -/
inductive FailKind where
  | countExceeded
  | timeoutExceeded
deriving DecidableEq, Repr

/-- The classification in the `else` clause of the `while` loop of
`Probe._run`: `if -1 < self.count < tries: e = CountExceeded
else: e = ProbeTimeout("Timeout exceeded.")`. -/
def resolveFailure (count : Int) (tries : Nat) : FailKind :=
  if -1 < count ∧ count < (tries : Int) then .countExceeded else .timeoutExceeded

/-- Terminal outcome of a foreground `_run` (where `self.queue` is None):
`return True`, `raise result`, `raise CountExceeded` or
`raise ProbeTimeout("Timeout exceeded.")`. -/
inductive Outcome where
  | success
  | raisedErr (e : PyExc)
  | raisedCountExceeded
  | raisedTimeout
deriving DecidableEq, Repr

/-- The outcome the foreground loop raises for a terminal failure. -/
def failOutcome : FailKind → Outcome
  | .countExceeded => .raisedCountExceeded
  | .timeoutExceeded => .raisedTimeout

/-- The foreground retry loop of `Probe._run` (`self.queue` is None), as
fuel-indexed recursion. Arguments after the fuel: `tries` (the source's
counter, starting at 1), `attempt` (0-based index of the currently active
unit, so `attempt + 1` units have been spawned), `k` (index of the next
loop condition check), `aliveLeft` (condition checks the active unit is
still alive for), `pending` (the message in `fnc_queue`, `none` once
consumed). Returns the outcome (`none` if the fuel ran out) together with
the number of units spawned. -/
def runFgLoop (cfg : ProbeConfig) (env : Env) :
    Nat → Nat → Nat → Nat → Nat → Option Msg → Option Outcome × Nat
  | 0, _tries, attempt, _k, _aliveLeft, _pending => (none, attempt + 1)
  | fuel + 1, tries, attempt, k, aliveLeft + 1, pending =>
    if loopCond cfg tries (env.clock k) then
      runFgLoop cfg env fuel tries attempt (k + 1) aliveLeft pending
    else
      (some (failOutcome (resolveFailure cfg.count tries)), attempt + 1)
  | fuel + 1, tries, attempt, k, 0, pending =>
    if loopCond cfg tries (env.clock k) then
      match pending with
      | some (.err e) => (some (.raisedErr e), attempt + 1)
      | some (.val v) =>
        if pyEq v cfg.expected_retval then
          (some .success, attempt + 1)
        else
          runFgLoop cfg env fuel (tries + 1) (attempt + 1) (k + 1)
            (env.aliveFor (attempt + 1))
            (some (wrapper cfg.expected_exceptions (env.outcome (attempt + 1))))
      | none => (some .success, attempt + 1)
    else
      (some (failOutcome (resolveFailure cfg.count tries)), attempt + 1)

/-- Foreground `Probe._run`: spawn the first unit, set `tries = 1`, enter
the loop. -/
def runFg (cfg : ProbeConfig) (env : Env) (fuel : Nat) : Option Outcome × Nat :=
  runFgLoop cfg env fuel 1 0 0 (env.aliveFor 0)
    (some (wrapper cfg.expected_exceptions (env.outcome 0)))

/-- An item `_run` puts on `self.queue` in background mode. `errInst` and
`timeoutInst` are exception instances; `countExceededClass` is the bare
class object `CountExceeded` that `self.queue.put(e)` receives (the source
assigns `e = CountExceeded` without instantiating it). -/
inductive QueueItem where
  | errInst (e : PyExc)
  | timeoutInst
  | countExceededClass
deriving DecidableEq, Repr

/-- Python `isinstance(result, Exception)` on a queue item: true for exception
instances, false for the bare class object `CountExceeded`. -/
def isExceptionInstance : QueueItem → Bool
  | .errInst _ => true
  | .timeoutInst => true
  | .countExceededClass => false

/-- What `_run` puts on `self.queue` for a terminal failure:
`CountExceeded` (the class object itself) or
`ProbeTimeout("Timeout exceeded.")` (an instance). -/
def failItem : FailKind → QueueItem
  | .countExceeded => .countExceededClass
  | .timeoutExceeded => .timeoutInst

/-- The background retry loop of `Probe._run` (`self.queue` is not None).
Same state as `runFgLoop` plus `acc`, the items put on `self.queue` so
far. An unexpected error is put on `self.queue` and the loop continues
with the dead unit and an empty `fnc_queue` (the source does not return
after `self.queue.put(result)`); a terminal failure appends
`failItem`. Returns the final contents of `self.queue` (`none` if the fuel
ran out) together with the number of units spawned. -/
def runBgLoop (cfg : ProbeConfig) (env : Env) :
    Nat → Nat → Nat → Nat → Nat → Option Msg → List QueueItem →
      Option (List QueueItem) × Nat
  | 0, _tries, attempt, _k, _aliveLeft, _pending, _acc => (none, attempt + 1)
  | fuel + 1, tries, attempt, k, aliveLeft + 1, pending, acc =>
    if loopCond cfg tries (env.clock k) then
      runBgLoop cfg env fuel tries attempt (k + 1) aliveLeft pending acc
    else
      (some (acc ++ [failItem (resolveFailure cfg.count tries)]), attempt + 1)
  | fuel + 1, tries, attempt, k, 0, pending, acc =>
    if loopCond cfg tries (env.clock k) then
      match pending with
      | some (.err e) =>
        runBgLoop cfg env fuel tries attempt (k + 1) 0 none (acc ++ [.errInst e])
      | some (.val v) =>
        if pyEq v cfg.expected_retval then
          (some acc, attempt + 1)
        else
          runBgLoop cfg env fuel (tries + 1) (attempt + 1) (k + 1)
            (env.aliveFor (attempt + 1))
            (some (wrapper cfg.expected_exceptions (env.outcome (attempt + 1))))
            acc
      | none => (some acc, attempt + 1)
    else
      (some (acc ++ [failItem (resolveFailure cfg.count tries)]), attempt + 1)

/-- Background `Probe._run`: spawn the first unit, set `tries = 1`, enter
the loop with an empty `self.queue`. -/
def runBg (cfg : ProbeConfig) (env : Env) (fuel : Nat) :
    Option (List QueueItem) × Nat :=
  runBgLoop cfg env fuel 1 0 0 (env.aliveFor 0)
    (some (wrapper cfg.expected_exceptions (env.outcome 0))) []

/-- The mutable state of a `Probe` object: the configuration set in
`__init__`, `self.process` (`none` before any background run; `some b`
a process handle whose `is_alive()` currently returns `b`) and
`self.queue` (`none` in foreground mode; `some items` the background
result queue and its current contents, front of the list first). -/
structure Probe where
  cfg : ProbeConfig
  process : Option Bool
  queue : Option (List QueueItem)
deriving DecidableEq, Repr

/-- The guard `self.process and self.process.is_alive()` shared by
`Probe.run` and `Probe.run_in_background`: true exactly when a previous
background process exists and is still alive. When true, the methods
raise `RuntimeError` and do nothing else. -/
def Probe.busy (p : Probe) : Bool :=
  match p.process with
  | some alive => alive
  | none => false

/-- Result of calling `run` or `run_in_background`: the busy
`RuntimeError`, or the call went ahead (for `run`, with the foreground
outcome; `none` when the fuel ran out). -/
inductive RunCall where
  | busyError
  | completed (outcome : Option Outcome)
deriving DecidableEq, Repr

/-- Model of `Probe.run`: raise `RuntimeError` when busy, otherwise run `_run` in
the foreground. Returns the (unchanged) object state, the call result and
the number of ExecutionUnits spawned by the call (0 when busy). -/
def Probe.run (p : Probe) (env : Env) (fuel : Nat) : Probe × RunCall × Nat :=
  if p.busy then (p, .busyError, 0)
  else (p, .completed (runFg p.cfg env fuel).1, (runFg p.cfg env fuel).2)

/-- Model of `Probe.run_in_background`: raise `RuntimeError` when busy, otherwise
set `self.queue` to a fresh empty queue, spawn a process running `_run`
and start it. The returned spawn count is 0 when busy and 1 otherwise
(the `_run` process just started; its children are spawned later, inside
it). -/
def Probe.run_in_background (p : Probe) (_env : Env) (_fuel : Nat) :
    Probe × RunCall × Nat :=
  if p.busy then (p, .busyError, 0)
  else ({ p with queue := some [], process := some true }, .completed none, 1)

/-- The probe object once a background run started by
`run_in_background` has terminated: the spawned process is dead and
`self.queue` holds exactly what the background loop put on it (`none`
when the fuel ran out before the loop resolved). -/
def Probe.afterBackgroundRun (p : Probe) (env : Env) (fuel : Nat) :
    Option Probe :=
  match runBg p.cfg env fuel with
  | (some items, _) => some { p with process := some false, queue := some items }
  | (none, _) => none

/-- Model of `Probe.terminate`: no-op without a process, otherwise send the kill
signal (after which `is_alive()` reports false). -/
def Probe.terminate (p : Probe) : Probe :=
  match p.process with
  | none => p
  | some _ => { p with process := some false }

/-- Model of `Probe.join`: no-op without a process; otherwise wait for the process
to exit, then, if a queue exists and is non-empty, take one item from it
and raise it when `isinstance(result, Exception)` holds. Returns the new
object state and `some item` when the item was raised to the caller,
`none` when `join` returned normally. -/
def Probe.join (p : Probe) : Probe × Option QueueItem :=
  match p.process with
  | none => (p, none)
  | some _ =>
    match p.queue with
    | none => ({ p with process := some false }, none)
    | some [] => ({ p with process := some false }, none)
    | some (item :: rest) =>
      ({ p with process := some false, queue := some rest },
       if isExceptionInstance item then some item else none)

/-- Model of `Probe.is_alive`: false without a process, otherwise the process's
`is_alive()`. Reads the state without changing it; modelled as a state
transformer to state the frame property. -/
def Probe.is_alive (p : Probe) : Probe × Bool :=
  match p.process with
  | none => (p, false)
  | some alive => (p, alive)

/-! ### Helper lemmas about the retry loop -/

/-- While the active unit is alive and the loop condition holds, the loop
only sleeps: after the `d` alive checks it is at check `k + d` with the
unit dead and the state otherwise unchanged. -/
theorem runFgLoop_alive (cfg : ProbeConfig) (env : Env) :
    ∀ (d fuel tries attempt k : Nat) (pending : Option Msg),
    (∀ j, j < d → loopCond cfg tries (env.clock (k + j)) = true) →
    runFgLoop cfg env (fuel + d) tries attempt k d pending =
      runFgLoop cfg env fuel tries attempt (k + d) 0 pending := by
  intro d
  induction d with
  | zero => intro fuel tries attempt k pending _; rfl
  | succ n ih =>
    intro fuel tries attempt k pending h
    have h0 : loopCond cfg tries (env.clock k) = true := by
      simpa using h 0 (Nat.succ_pos n)
    show runFgLoop cfg env (Nat.succ (fuel + n)) tries attempt k (Nat.succ n) pending = _
    rw [runFgLoop.eq_2, if_pos h0]
    rw [ih fuel tries attempt (k + 1) pending (fun j hj => by
      have := h (j + 1) (Nat.succ_lt_succ hj)
      simpa [Nat.add_assoc, Nat.add_comm 1 j] using this)]
    have heq : k + 1 + n = k + (n + 1) := by omega
    rw [heq]

/-- One retry step of the foreground loop: the unit is dead, its value
does not match `expected_retval`, so a fresh unit is spawned and `tries`
is incremented. -/
theorem runFgLoop_retry (cfg : ProbeConfig) (env : Env)
    (fuel tries attempt k : Nat) (v : PyVal)
    (hc : loopCond cfg tries (env.clock k) = true)
    (hne : pyEq v cfg.expected_retval = false) :
    runFgLoop cfg env (fuel + 1) tries attempt k 0 (some (.val v)) =
      runFgLoop cfg env fuel (tries + 1) (attempt + 1) (k + 1)
        (env.aliveFor (attempt + 1))
        (some (wrapper cfg.expected_exceptions (env.outcome (attempt + 1)))) := by
  show runFgLoop cfg env (Nat.succ fuel) tries attempt k 0 (some (.val v)) = _
  rw [runFgLoop.eq_4, if_pos hc, if_neg (by simp [hne])]

/-- Exit step of the foreground loop: when the `while` condition fails the
active unit is terminated and the terminal failure is classified by
`resolveFailure`. -/
theorem runFgLoop_stop (cfg : ProbeConfig) (env : Env)
    (fuel tries attempt k aliveLeft : Nat) (pending : Option Msg)
    (hc : loopCond cfg tries (env.clock k) = false) :
    runFgLoop cfg env (fuel + 1) tries attempt k aliveLeft pending =
      (some (failOutcome (resolveFailure cfg.count tries)), attempt + 1) := by
  have hc' : ¬(loopCond cfg tries (env.clock k) = true) := by simp [hc]
  cases aliveLeft with
  | succ n =>
    show runFgLoop cfg env (Nat.succ fuel) tries attempt k (Nat.succ n) pending = _
    rw [runFgLoop.eq_2, if_neg hc']
  | zero =>
    cases pending with
    | none =>
      show runFgLoop cfg env (Nat.succ fuel) tries attempt k 0 none = _
      rw [runFgLoop.eq_5, if_neg hc']
    | some msg =>
      cases msg with
      | err e =>
        show runFgLoop cfg env (Nat.succ fuel) tries attempt k 0 (some (Msg.err e)) = _
        rw [runFgLoop.eq_3, if_neg hc']
      | val v =>
        show runFgLoop cfg env (Nat.succ fuel) tries attempt k 0 (some (Msg.val v)) = _
        rw [runFgLoop.eq_4, if_neg hc']

/-! ### C3 -/

/-- C3: whenever the retry loop resolves a terminal failure (the `while`
condition failed), the failure is classified by `resolveFailure`; if
`count` is finite (`0 ≤ count`) and `tries` exceeds it, the result is
`CountExceeded` even when the wall-clock timeout has also elapsed, and
`TimeoutExceeded` is resolved only when `tries` has not exceeded a finite
`count`. -/
theorem C3_count_exceeded_precedence (cfg : ProbeConfig) (env : Env)
    (fuel tries attempt k aliveLeft : Nat) (pending : Option Msg)
    (hstop : loopCond cfg tries (env.clock k) = false) :
    runFgLoop cfg env (fuel + 1) tries attempt k aliveLeft pending =
      (some (failOutcome (resolveFailure cfg.count tries)), attempt + 1) ∧
    (0 ≤ cfg.count → cfg.count < (tries : Int) →
      0 ≤ cfg.timeout → cfg.timeout < env.clock k →
      resolveFailure cfg.count tries = .countExceeded) ∧
    (resolveFailure cfg.count tries = .timeoutExceeded →
      ¬(0 ≤ cfg.count ∧ cfg.count < (tries : Int))) := by
  refine ⟨runFgLoop_stop cfg env fuel tries attempt k aliveLeft pending hstop, ?_, ?_⟩
  · intro h1 h2 _ _
    rw [resolveFailure, if_pos ⟨by omega, h2⟩]
  · intro h
    rintro ⟨h1, h2⟩
    rw [resolveFailure, if_pos ⟨by omega, h2⟩] at h
    exact FailKind.noConfusion h

/-- Witness for C3 at a concrete state: `count = 2`, `tries = 3`,
`timeout = 5`, elapsed clock `7`. -/
theorem C3_witness :
    runFgLoop { count := 2, timeout := 5 : ProbeConfig }
        ⟨fun _ => .ret (.bool false), fun _ => 0, fun _ => 7⟩ 1 3 2 0 0 none =
      (some (failOutcome (resolveFailure 2 3)), 3) ∧
    resolveFailure 2 3 = .countExceeded := by
  have h := C3_count_exceeded_precedence { count := 2, timeout := 5 }
    ⟨fun _ => .ret (.bool false), fun _ => 0, fun _ => 7⟩ 0 3 2 0 0 none (by decide)
  exact ⟨h.1, h.2.1 (by decide) (by decide) (by decide) (by decide)⟩

/-! ### C5 -/

/-- C5: calling `run` or `run_in_background` while a previous run of the
same instance is still alive raises the busy `RuntimeError`, leaves the
object unchanged and spawns no new ExecutionUnit. -/
theorem C5_busy_rejects_new_run (p : Probe) (env : Env) (fuel : Nat)
    (h : p.busy = true) :
    Probe.run p env fuel = (p, .busyError, 0) ∧
    Probe.run_in_background p env fuel = (p, .busyError, 0) := by
  constructor
  · rw [Probe.run, if_pos h]
  · rw [Probe.run_in_background, if_pos h]

/-- Witness for C5: a probe whose previous background process is alive. -/
theorem C5_witness :
    Probe.run ⟨{}, some true, some []⟩ ⟨fun _ => .ret (.bool true), fun _ => 0, fun _ => 0⟩ 5 =
      (⟨{}, some true, some []⟩, .busyError, 0) ∧
    Probe.run_in_background ⟨{}, some true, some []⟩
        ⟨fun _ => .ret (.bool true), fun _ => 0, fun _ => 0⟩ 5 =
      (⟨{}, some true, some []⟩, .busyError, 0) :=
  C5_busy_rejects_new_run ⟨{}, some true, some []⟩
    ⟨fun _ => .ret (.bool true), fun _ => 0, fun _ => 0⟩ 5 rfl

/-! ### C8 -/

/-- C8: an ExecutionUnit (`_wrapper`) publishes exactly one message on its
result queue: the raw return value when `checkFn` returns normally, the
`False` sentinel when it raises an exception whose kind is registered in
`expected_exceptions`, and the raised exception instance itself
otherwise. -/
theorem C8_wrapper_one_message (eexc : List Nat) (oc : CheckOutcome) :
    (∀ v, oc = .ret v → wrapper eexc oc = .val v) ∧
    (∀ e, oc = .exc e → e.kind ∈ eexc → wrapper eexc oc = .val (.bool false)) ∧
    (∀ e, oc = .exc e → e.kind ∉ eexc → wrapper eexc oc = .err e) := by
  refine ⟨?_, ?_, ?_⟩
  · rintro v rfl; rfl
  · rintro e rfl he; rw [wrapper, if_pos he]
  · rintro e rfl he; rw [wrapper, if_neg he]

/-- Witness for C8: the expected-exception case at a concrete input. -/
theorem C8_witness :
    wrapper [3] (.exc ⟨3, "busy"⟩) = .val (.bool false) :=
  (C8_wrapper_one_message [3] (.exc ⟨3, "busy"⟩)).2.1 ⟨3, "busy"⟩ rfl (by decide)

/-! ### C9 -/

/-- C9: every operation of a probe object (`run`, `run_in_background`,
`terminate`, `join`, `is_alive`) leaves the configuration (`timeout`,
`pause`, `count`, `expected_exceptions`, `expected_retval`, `fnc`,
`kwargs`) unchanged; only `process` and `queue` are ever reassigned. -/
theorem C9_config_unchanged (p : Probe) (env : Env) (fuel : Nat) :
    (Probe.run p env fuel).1.cfg = p.cfg ∧
    (Probe.run_in_background p env fuel).1.cfg = p.cfg ∧
    (Probe.terminate p).cfg = p.cfg ∧
    (Probe.join p).1.cfg = p.cfg ∧
    (Probe.is_alive p).1.cfg = p.cfg := by
  refine ⟨?_, ?_, ?_, ?_, ?_⟩
  · rw [Probe.run]; split <;> rfl
  · rw [Probe.run_in_background]; split <;> rfl
  · rw [Probe.terminate]; cases p.process <;> rfl
  · rw [Probe.join]
    cases p.process with
    | none => rfl
    | some b =>
      cases hq : p.queue with
      | none => rfl
      | some items => cases items <;> rfl
  · rw [Probe.is_alive]; cases p.process <;> rfl

/-! ### C1 -/

/-- Configuration of the C1 failing input: `count = 1`, `timeout = -1`,
exception kind 5 registered as expected. -/
def cfgC1 : ProbeConfig := { timeout := -1, count := 1, expected_exceptions := [5] }

/-- Environment of the C1 failing input: `checkFn` always raises the
expected exception; units finish before the next liveness check. -/
def envC1 : Env := ⟨fun _ => .exc ⟨5, "not ready"⟩, fun _ => 0, fun _ => 0⟩

/-- C1 fails on the code: this background run exhausts its count budget
and `_run` puts the *class object* `CountExceeded` (not an instance) on
`self.queue`; `join`'s `isinstance(result, Exception)` test is false for
a class object, so `join` returns normally even though the channel was
not empty — the claim requires `join` to raise the condition and to
return normally only on an empty channel. -/
theorem C1_join_swallows_count_exceeded :
    Probe.afterBackgroundRun ⟨cfgC1, some true, some []⟩ envC1 10 =
      some ⟨cfgC1, some false, some [QueueItem.countExceededClass]⟩ ∧
    isExceptionInstance .countExceededClass = false ∧
    Probe.join ⟨cfgC1, some false, some [QueueItem.countExceededClass]⟩ =
      (⟨cfgC1, some false, some []⟩, none) :=
  ⟨rfl, rfl, rfl⟩

/-! ### C2 -/

/-- Configuration of the C2 scenario: `count = 3`, `timeout = -1`,
exception kind 7 registered as expected, default `expected_retval`. -/
def cfgC2 : ProbeConfig := { timeout := -1, count := 3, expected_exceptions := [7] }

/-- Environment of the C2 scenario: `checkFn` always raises the expected
exception; units finish before the next liveness check. -/
def envC2 : Env := ⟨fun _ => .exc ⟨7, "not ready"⟩, fun _ => 0, fun _ => 0⟩

/-- C2 as stated fails on the code: with `count = 3` and an always
expected-raising `checkFn`, `run()` does raise `CountExceeded`, but four
ExecutionUnits are spawned, not three — the loop starts a fourth process
before re-checking the count budget and then terminates it. -/
theorem C2_counterexample :
    runFg cfgC2 envC2 10 = (some .raisedCountExceeded, 4) ∧ (4 : Nat) ≠ 3 :=
  ⟨rfl, by decide⟩

/-- One retry step in the C2 scenario: the dead unit delivered the `False`
sentinel, which does not match `expected_retval`, so a fresh unit (which
again delivers the sentinel and dies before the next check) is spawned. -/
theorem runFgLoop_retry_sentinel (cfg : ProbeConfig) (env : Env)
    (fuel tries attempt k : Nat)
    (hc : loopCond cfg tries (env.clock k) = true)
    (hne : pyEq (.bool false) cfg.expected_retval = false)
    (hsent : wrapper cfg.expected_exceptions (env.outcome (attempt + 1)) =
      .val (.bool false))
    (halive : env.aliveFor (attempt + 1) = 0) :
    runFgLoop cfg env (fuel + 1) tries attempt k 0 (some (.val (.bool false))) =
      runFgLoop cfg env fuel (tries + 1) (attempt + 1) (k + 1) 0
        (some (.val (.bool false))) := by
  rw [runFgLoop_retry cfg env fuel tries attempt k (.bool false) hc hne, hsent, halive]

/-- C2 amended: with `count = 3`, `timeout = -1` and a `checkFn` that
always raises a registered expected exception, `run()` raises
`CountExceeded`, but **four** ExecutionUnits are spawned: the loop starts
a fourth unit before re-checking the count budget and then terminates it
without reading its result. (Units are assumed to finish before the next
liveness check.) -/
theorem C2_amended_count_exceeded_four_units (cfg : ProbeConfig) (env : Env)
    (fuel : Nat)
    (hcount : cfg.count = 3) (htimeout : cfg.timeout = -1)
    (hretval : cfg.expected_retval = .bool true)
    (hout : ∀ n, ∃ e, env.outcome n = .exc e ∧ e.kind ∈ cfg.expected_exceptions)
    (halive : ∀ n, env.aliveFor n = 0)
    (hfuel : 4 ≤ fuel) :
    runFg cfg env fuel = (some .raisedCountExceeded, 4) := by
  obtain ⟨f, rfl⟩ : ∃ f, fuel = f + 1 + 1 + 1 + 1 := ⟨fuel - 4, by omega⟩
  have hsent : ∀ n,
      wrapper cfg.expected_exceptions (env.outcome n) = .val (.bool false) := by
    intro n
    obtain ⟨e, he, hk⟩ := hout n
    rw [he, wrapper, if_pos hk]
  have hne : pyEq (.bool false) cfg.expected_retval = false := by
    rw [hretval]; rfl
  have hcnd : ∀ tries k : Nat, (tries : Int) ≤ 3 →
      loopCond cfg tries (env.clock k) = true := by
    intro tries k ht
    simp [loopCond, hcount, htimeout, ht]
  have hstop : ∀ k : Nat, loopCond cfg (1 + 1 + 1 + 1) (env.clock k) = false := by
    intro k
    norm_num [loopCond, hcount, htimeout]
  rw [runFg, halive 0, hsent 0]
  rw [runFgLoop_retry_sentinel cfg env (f + 1 + 1 + 1) 1 0 0
    (hcnd 1 0 (by norm_num)) hne (hsent 1) (halive 1)]
  rw [runFgLoop_retry_sentinel cfg env (f + 1 + 1) (1 + 1) (0 + 1) (0 + 1)
    (hcnd (1 + 1) (0 + 1) (by norm_num)) hne (hsent (0 + 1 + 1)) (halive (0 + 1 + 1))]
  rw [runFgLoop_retry_sentinel cfg env (f + 1) (1 + 1 + 1) (0 + 1 + 1) (0 + 1 + 1)
    (hcnd (1 + 1 + 1) (0 + 1 + 1) (by norm_num)) hne (hsent (0 + 1 + 1 + 1))
    (halive (0 + 1 + 1 + 1))]
  rw [runFgLoop_stop cfg env f (1 + 1 + 1 + 1) (0 + 1 + 1 + 1) (0 + 1 + 1 + 1) 0
    (some (.val (.bool false))) (hstop (0 + 1 + 1 + 1))]
  rw [hcount]
  decide

/-- Witness for the amended C2 at the concrete scenario
`cfgC2`/`envC2`. -/
theorem C2_witness : runFg cfgC2 envC2 4 = (some .raisedCountExceeded, 4) :=
  C2_amended_count_exceeded_four_units cfgC2 envC2 4 rfl rfl rfl
    (fun _ => ⟨⟨7, "not ready"⟩, rfl, by decide⟩) (fun _ => rfl) (by decide)

/-! ### C4 -/

/-- C4: when `checkFn` raises an exception whose kind is not registered in
`expected_exceptions` on the very first call, `run()` raises that exact
exception, exactly one ExecutionUnit is spawned and no retry occurs — for
every `count` and `timeout` budget under which the first result is
examined at all (the loop condition holds up to the check at which the
first unit is dead). -/
theorem C4_unexpected_error_first_call (cfg : ProbeConfig) (env : Env)
    (e : PyExc) (fuel : Nat)
    (hout : env.outcome 0 = .exc e)
    (hkind : e.kind ∉ cfg.expected_exceptions)
    (hcond : ∀ j, j ≤ env.aliveFor 0 → loopCond cfg 1 (env.clock j) = true)
    (hfuel : env.aliveFor 0 < fuel) :
    runFg cfg env fuel = (some (.raisedErr e), 1) := by
  obtain ⟨f, rfl⟩ : ∃ f, fuel = (f + 1) + env.aliveFor 0 :=
    ⟨fuel - env.aliveFor 0 - 1, by omega⟩
  have hw : wrapper cfg.expected_exceptions (env.outcome 0) = .err e := by
    rw [hout, wrapper, if_neg hkind]
  rw [runFg, hw]
  rw [runFgLoop_alive cfg env (env.aliveFor 0) (f + 1) 1 0 0 (some (.err e))
    (fun j hj => by simpa using hcond j (Nat.le_of_lt hj))]
  have hc0 : loopCond cfg 1 (env.clock (0 + env.aliveFor 0)) = true := by
    simpa using hcond (env.aliveFor 0) le_rfl
  show runFgLoop cfg env (Nat.succ f) 1 0 (0 + env.aliveFor 0) 0
    (some (Msg.err e)) = _
  rw [runFgLoop.eq_3, if_pos hc0]

/-- Environment for the C4 witness: `checkFn` raises an unregistered
exception at once. -/
def envC4w : Env := ⟨fun _ => .exc ⟨9, "boom"⟩, fun _ => 0, fun _ => 0⟩

/-- Witness for C4: generous remaining budgets (`count = 5`, default
`timeout = 1`), yet the unexpected error is raised after one unit. -/
theorem C4_witness :
    runFg { count := 5 } envC4w 2 = (some (.raisedErr ⟨9, "boom"⟩), 1) :=
  C4_unexpected_error_first_call { count := 5 } envC4w ⟨9, "boom"⟩ 2 rfl
    (by decide) (fun j _ => rfl) (by decide)

/-! ### C6 -/

/-- C6: when `checkFn` returns a value Python-equal to `expected_retval`
on its first invocation, `run()` returns `True` and exactly one
ExecutionUnit is spawned (assuming the loop condition holds up to the
check at which the first unit is dead, as needed for any result to be
examined). -/
theorem C6_first_call_success (cfg : ProbeConfig) (env : Env) (v : PyVal)
    (fuel : Nat)
    (hout : env.outcome 0 = .ret v)
    (hmatch : pyEq v cfg.expected_retval = true)
    (hcond : ∀ j, j ≤ env.aliveFor 0 → loopCond cfg 1 (env.clock j) = true)
    (hfuel : env.aliveFor 0 < fuel) :
    runFg cfg env fuel = (some .success, 1) := by
  obtain ⟨f, rfl⟩ : ∃ f, fuel = (f + 1) + env.aliveFor 0 :=
    ⟨fuel - env.aliveFor 0 - 1, by omega⟩
  have hw : wrapper cfg.expected_exceptions (env.outcome 0) = .val v := by
    rw [hout, wrapper]
  rw [runFg, hw]
  rw [runFgLoop_alive cfg env (env.aliveFor 0) (f + 1) 1 0 0 (some (.val v))
    (fun j hj => by simpa using hcond j (Nat.le_of_lt hj))]
  have hc0 : loopCond cfg 1 (env.clock (0 + env.aliveFor 0)) = true := by
    simpa using hcond (env.aliveFor 0) le_rfl
  show runFgLoop cfg env (Nat.succ f) 1 0 (0 + env.aliveFor 0) 0
    (some (Msg.val v)) = _
  rw [runFgLoop.eq_4, if_pos hc0, if_pos hmatch]

/-- Environment for the C6 witness: `checkFn` returns `True` at once. -/
def envC6w : Env := ⟨fun _ => .ret (.bool true), fun _ => 0, fun _ => 0⟩

/-- Witness for C6 with the default configuration. -/
theorem C6_witness : runFg {} envC6w 1 = (some .success, 1) :=
  C6_first_call_success {} envC6w (.bool true) 1 rfl rfl (fun j _ => rfl)
    (by decide)

/-! ### C10 -/

/-- C10: with `expected_retval = False`, a `checkFn` that raises a
registered expected exception makes the run resolve Success after one
unit: the sentinel published for an expected exception is the value
`False`, and the loop decides success by `==` comparison with
`expected_retval`. (Same examination hypotheses as C6.) -/
theorem C10_false_retval_expected_exception_success (cfg : ProbeConfig)
    (env : Env) (e : PyExc) (fuel : Nat)
    (hretval : cfg.expected_retval = .bool false)
    (hout : env.outcome 0 = .exc e)
    (hkind : e.kind ∈ cfg.expected_exceptions)
    (hcond : ∀ j, j ≤ env.aliveFor 0 → loopCond cfg 1 (env.clock j) = true)
    (hfuel : env.aliveFor 0 < fuel) :
    runFg cfg env fuel = (some .success, 1) := by
  obtain ⟨f, rfl⟩ : ∃ f, fuel = (f + 1) + env.aliveFor 0 :=
    ⟨fuel - env.aliveFor 0 - 1, by omega⟩
  have hw : wrapper cfg.expected_exceptions (env.outcome 0) =
      .val (.bool false) := by
    rw [hout, wrapper, if_pos hkind]
  have hmatch : pyEq (.bool false) cfg.expected_retval = true := by
    rw [hretval]; rfl
  rw [runFg, hw]
  rw [runFgLoop_alive cfg env (env.aliveFor 0) (f + 1) 1 0 0
    (some (.val (.bool false)))
    (fun j hj => by simpa using hcond j (Nat.le_of_lt hj))]
  have hc0 : loopCond cfg 1 (env.clock (0 + env.aliveFor 0)) = true := by
    simpa using hcond (env.aliveFor 0) le_rfl
  show runFgLoop cfg env (Nat.succ f) 1 0 (0 + env.aliveFor 0) 0
    (some (Msg.val (.bool false))) = _
  rw [runFgLoop.eq_4, if_pos hc0, if_pos hmatch]

/-- Configuration for the C10 witness: `expected_retval = False`,
exception kind 7 registered. -/
def cfgC10w : ProbeConfig :=
  { expected_retval := .bool false, expected_exceptions := [7] }

/-- Environment for the C10 witness: `checkFn` raises the registered
exception at once. -/
def envC10w : Env := ⟨fun _ => .exc ⟨7, "not ready"⟩, fun _ => 0, fun _ => 0⟩

/-- Witness for C10. -/
theorem C10_witness : runFg cfgC10w envC10w 1 = (some .success, 1) :=
  C10_false_retval_expected_exception_success cfgC10w envC10w ⟨7, "not ready"⟩
    1 rfl rfl (by decide) (fun j _ => rfl) (by decide)

/-! ### C7 -/

/-- With `timeout = -1` and `count = -1` the foreground loop can only
resolve Success or an unexpected error, at every reachable state. -/
theorem runFgLoop_unbounded_no_failure (cfg : ProbeConfig) (env : Env)
    (ht : cfg.timeout = -1) (hc : cfg.count = -1) :
    ∀ (fuel tries attempt k aliveLeft : Nat) (pending : Option Msg)
      (r : Outcome) (s : Nat),
    runFgLoop cfg env fuel tries attempt k aliveLeft pending = (some r, s) →
    r = .success ∨ ∃ e, r = .raisedErr e := by
  intro fuel
  induction fuel with
  | zero =>
    intro tries attempt k al pending r s h
    rw [runFgLoop.eq_1] at h
    simp at h
  | succ f ih =>
    intro tries attempt k al pending r s h
    have hcnd : loopCond cfg tries (env.clock k) = true := by
      simp [loopCond, ht, hc]
    cases al with
    | succ n =>
      rw [runFgLoop.eq_2, if_pos hcnd] at h
      exact ih _ _ _ _ _ _ _ h
    | zero =>
      cases pending with
      | none =>
        rw [runFgLoop.eq_5, if_pos hcnd] at h
        simp only [Prod.mk.injEq, Option.some.injEq] at h
        exact Or.inl h.1.symm
      | some msg =>
        cases msg with
        | err e =>
          rw [runFgLoop.eq_3, if_pos hcnd] at h
          simp only [Prod.mk.injEq, Option.some.injEq] at h
          exact Or.inr ⟨e, h.1.symm⟩
        | val v =>
          rw [runFgLoop.eq_4, if_pos hcnd] at h
          by_cases hv : pyEq v cfg.expected_retval = true
          · rw [if_pos hv] at h
            simp only [Prod.mk.injEq, Option.some.injEq] at h
            exact Or.inl h.1.symm
          · rw [if_neg hv] at h
            exact ih _ _ _ _ _ _ _ h

/-- With `timeout = -1` and `count = -1` the background loop never puts a
`CountExceeded` or `TimeoutExceeded` marker on `self.queue`. -/
theorem runBgLoop_unbounded_no_marker (cfg : ProbeConfig) (env : Env)
    (ht : cfg.timeout = -1) (hc : cfg.count = -1) :
    ∀ (fuel tries attempt k aliveLeft : Nat) (pending : Option Msg)
      (acc q : List QueueItem) (s : Nat),
    runBgLoop cfg env fuel tries attempt k aliveLeft pending acc = (some q, s) →
    QueueItem.countExceededClass ∉ acc → QueueItem.timeoutInst ∉ acc →
    QueueItem.countExceededClass ∉ q ∧ QueueItem.timeoutInst ∉ q := by
  intro fuel
  induction fuel with
  | zero =>
    intro tries attempt k al pending acc q s h _ _
    rw [runBgLoop.eq_1] at h
    simp at h
  | succ f ih =>
    intro tries attempt k al pending acc q s h ha hb
    have hcnd : loopCond cfg tries (env.clock k) = true := by
      simp [loopCond, ht, hc]
    cases al with
    | succ n =>
      rw [runBgLoop.eq_2, if_pos hcnd] at h
      exact ih _ _ _ _ _ _ _ _ h ha hb
    | zero =>
      cases pending with
      | none =>
        rw [runBgLoop.eq_5, if_pos hcnd] at h
        simp only [Prod.mk.injEq, Option.some.injEq] at h
        exact h.1 ▸ ⟨ha, hb⟩
      | some msg =>
        cases msg with
        | err e =>
          rw [runBgLoop.eq_3, if_pos hcnd] at h
          refine ih _ _ _ _ _ _ _ _ h ?_ ?_ <;> simp [ha, hb]
        | val v =>
          rw [runBgLoop.eq_4, if_pos hcnd] at h
          by_cases hv : pyEq v cfg.expected_retval = true
          · rw [if_pos hv] at h
            simp only [Prod.mk.injEq, Option.some.injEq] at h
            exact h.1 ▸ ⟨ha, hb⟩
          · rw [if_neg hv] at h
            exact ih _ _ _ _ _ _ _ _ h ha hb

/-- C7: with `timeout = -1` and `count = -1` the retry loop never resolves
`CountExceeded` or `TimeoutExceeded`: a terminated foreground run ended in
Success or an unexpected error, and a terminated background run never put
a `CountExceeded`/`TimeoutExceeded` marker on `self.queue` — the terminal
failure branch is unreachable. -/
theorem C7_unbounded_no_budget_failure (cfg : ProbeConfig) (env : Env)
    (fuel : Nat) (ht : cfg.timeout = -1) (hc : cfg.count = -1) :
    (∀ r s, runFg cfg env fuel = (some r, s) →
      r = .success ∨ ∃ e, r = .raisedErr e) ∧
    (∀ q s, runBg cfg env fuel = (some q, s) →
      QueueItem.countExceededClass ∉ q ∧ QueueItem.timeoutInst ∉ q) := by
  constructor
  · intro r s h
    exact runFgLoop_unbounded_no_failure cfg env ht hc _ _ _ _ _ _ _ _ h
  · intro q s h
    exact runBgLoop_unbounded_no_marker cfg env ht hc _ _ _ _ _ _ _ _ _ h
      (by simp) (by simp)

/-- Configuration for the C7 witness: both budgets unbounded. -/
def cfgC7w : ProbeConfig := { timeout := -1, count := -1 }

/-- Environment for the C7 witness: `checkFn` returns `True` at once. -/
def envC7w : Env := ⟨fun _ => .ret (.bool true), fun _ => 0, fun _ => 0⟩

/-- Witness for C7 at a concrete unbounded run that resolves Success. -/
theorem C7_witness :
    Outcome.success = Outcome.success ∨
      ∃ e, Outcome.success = Outcome.raisedErr e :=
  (C7_unbounded_no_budget_failure cfgC7w envC7w 3 rfl rfl).1 .success 1 rfl

end Conu
